import Mathlib

/-!
Verification of the casanovo spectrum data-preparation pipeline and
model-runner lifecycle against its natural-language specification.

The `dataloaders` section is a shallow embedding of
`src/casanovo/denovo/dataloaders.py` (the `DeNovoDataModule` class and the
`scale_to_unit_norm` preprocessing step).  Machine parsing, the external
`depthcharge` dataset constructors and torch's `DataLoader` are modelled as
opaque result descriptors; the branching logic, Python string-membership
semantics and Python call-binding semantics are embedded faithfully.

The model-runner section models `ModelRunner` (initialize_model, checkpoint
reconciliation, predict-time evaluation input validation), which is not part
of the shown sources (only its unit tests are); those definitions are
modelled from the spec, as marked in their doc comments.
-/

set_option autoImplicit false

namespace Casanovo

/-! ## Python string membership (`a in b` on `str` is a substring test) -/

/-- Does `needle` occur as a contiguous run inside `hay`?  Implements the
Python expression `needle in hay` for strings (note `"" in s` is `True`). -/
def containsSub (hay needle : List Char) : Bool :=
  needle.isPrefixOf hay ||
    match hay with
    | [] => false
    | _ :: t => containsSub t needle

/-- Python `a in b` for strings: `a` is a substring of `b`. -/
def pyIn (a b : String) : Bool :=
  containsSub b.data a.data

/-! ## Paths and the data module configuration -/

/-- An input path as seen by `make_dataset`: its full name and the value of
`pathlib.Path(f).suffix` (the final extension, `""` when there is none). -/
structure MSPath where
  name : String
  suffix : String
deriving DecidableEq, Repr

/-- The custom fields registered in `DeNovoDataModule.__init__`:
`custom_field_anno` extracts `seq`; `custom_field_test_mgf` extracts
`scans`/`title` from MGF params; `custom_field_test_mzml` extracts both from
the mzML `id`. -/
inductive CField where
  | seq
  | scansMgf
  | titleMgf
  | scansMzml
  | titleMzml
deriving DecidableEq, Repr

/-- Result descriptor for the external depthcharge dataset constructors used
by `make_dataset`: either loading an existing lance store (from `paths[0]`)
or parsing raw peak files into a new lance store at `lance_path`. -/
inductive DatasetBase where
  | annotatedFromLance (path : String) (batchSize : Nat)
  | plainFromLance (path : String) (batchSize : Nat)
  | annotatedNew (paths : List String) (lancePath : String)
      (customFields : List CField) (batchSize : Nat)
  | plainNew (paths : List String) (lancePath : String)
      (customFields : List CField) (batchSize : Nat)
deriving DecidableEq, Repr

/-- A dataset as returned by `make_dataset`: the base dataset, optionally
wrapped in torch's `ShufflerIterDataPipe` with the module's buffer size. -/
inductive BuiltDataset where
  | base (d : DatasetBase)
  | shuffler (d : DatasetBase) (bufferSize : Nat)
deriving DecidableEq, Repr

/-- Python exceptions that the embedded data-module code can raise. -/
inductive PyErr where
  | indexError
  | typeError
  | valueError
  | nameError
deriving DecidableEq, Repr

/-- The slice of `DeNovoDataModule` state fixed at `__init__` that the
embedded methods read. -/
structure DataModuleCfg where
  train_batch_size : Nat
  eval_batch_size : Nat
  shuffle : Bool
  buffer_size : Nat
  lance_dir : String
  train_paths : Option (List MSPath)
  valid_paths : Option (List MSPath)
  test_paths : Option (List MSPath)
deriving DecidableEq, Repr

/-- `DeNovoDataModule.make_dataset`.  Mirrors the source exactly:
`custom_fields` starts from `custom_field_anno` when `annotated`; in `"test"`
mode the MGF fields are appended when every suffix satisfies the Python test
`suffix in (".mgf")` (a *substring* test, since `(".mgf")` is a string) and
the mzML fields when every suffix is a member of the tuple
`(".mzml", ".mzxml", ".mzML")`.  When `any(Path(f).suffix in (".lance"))`
(again a substring test) the dataset is loaded from `paths[0]`; otherwise a
new lance store is parsed from all the paths.  A truthy `shuffle` wraps the
result in `ShufflerIterDataPipe(dataset, buffer_size=self.buffer_size)`. -/
def make_dataset (dm : DataModuleCfg) (paths : List MSPath) (annotated : Bool)
    (mode : String) (shuffle : Bool) : Except PyErr BuiltDataset :=
  let custom_fields := if annotated then [CField.seq] else []
  let custom_fields :=
    if mode == "test" then
      let cf :=
        if paths.all (fun f => pyIn f.suffix ".mgf") then
          custom_fields ++ [CField.scansMgf, CField.titleMgf]
        else custom_fields
      if paths.all (fun f =>
          f.suffix == ".mzml" || f.suffix == ".mzxml" || f.suffix == ".mzML") then
        cf ++ [CField.scansMzml, CField.titleMzml]
      else cf
    else custom_fields
  let lance_path := dm.lance_dir ++ "/" ++ mode ++ ".lance"
  let batch_size := if mode == "train" then dm.train_batch_size else dm.eval_batch_size
  let dataset : Except PyErr DatasetBase :=
    if paths.any (fun f => pyIn f.suffix ".lance") then
      match paths with
      | [] => .error .indexError
      | p :: _ =>
        if annotated then .ok (.annotatedFromLance p.name batch_size)
        else .ok (.plainFromLance p.name batch_size)
    else
      if annotated then
        .ok (.annotatedNew (paths.map (·.name)) lance_path custom_fields batch_size)
      else
        .ok (.plainNew (paths.map (·.name)) lance_path custom_fields batch_size)
  dataset.map (fun d => if shuffle then .shuffler d dm.buffer_size else .base d)

/-- The mutable dataset slots of `DeNovoDataModule` assigned by `setup`. -/
structure DMState where
  train_dataset : Option BuiltDataset
  valid_dataset : Option BuiltDataset
  test_dataset : Option BuiltDataset
deriving DecidableEq, Repr

/-- `DeNovoDataModule.setup`: when `stage in (None, "fit", "validate")` the
train dataset is built with `shuffle=self.shuffle` and the valid dataset with
`shuffle=False`; when `stage in (None, "test")` the test dataset is built
with `shuffle=False`.  Slots whose path list is `None` are left untouched. -/
def setup (dm : DataModuleCfg) (stage : Option String) (annotated : Bool)
    (st : DMState) : Except PyErr DMState :=
  let fitPart : Except PyErr DMState :=
    if stage == none || stage == some "fit" || stage == some "validate" then
      (match dm.train_paths with
       | some ps =>
         (make_dataset dm ps true "train" dm.shuffle).map
           (fun d => { st with train_dataset := some d })
       | none => .ok st).bind
        (fun st' =>
          match dm.valid_paths with
          | some ps =>
            (make_dataset dm ps true "valid" false).map
              (fun d => { st' with valid_dataset := some d })
          | none => .ok st')
    else .ok st
  fitPart.bind (fun st' =>
    if stage == none || stage == some "test" then
      match dm.test_paths with
      | some ps =>
        (make_dataset dm ps annotated "test" false).map
          (fun d => { st' with test_dataset := some d })
      | none => .ok st'
    else .ok st')

/-! ## Batch delivery order

`ShufflerIterDataPipe` is external torch code; it is modelled here as a
concrete bounded-buffer shuffle driven by a deterministic seeded generator:
fill a buffer of at most `cap` records, then for every further record yield a
pseudo-randomly chosen buffer slot and replace it, finally drain the buffer
in pseudo-random order.  An unshuffled dataset is iterated in storage
order. -/

/-- One step of a 64-bit linear congruential generator (the model of the
torch RNG stream consumed by the shuffler). -/
def lcg (s : Nat) : Nat :=
  (6364136223846793005 * s + 1442695040888963407) % 2 ^ 64

/-- Drain the shuffle buffer: repeatedly emit a pseudo-random slot.  `fuel`
bounds the recursion and is instantiated with the buffer length. -/
def drainBuf : Nat → List Nat → Nat → List Nat
  | 0, _, _ => []
  | _ + 1, [], _ => []
  | fuel + 1, b :: bs, s =>
    let buf := b :: bs
    let s' := lcg s
    let i := s' % buf.length
    buf.getD i 0 :: drainBuf fuel (buf.eraseIdx i) s'

/-- The streaming phase of the bounded-buffer shuffle. -/
def shufflePipe (cap : Nat) : List Nat → List Nat → Nat → List Nat
  | buf, [], s => drainBuf buf.length buf s
  | buf, x :: xs, s =>
    if buf.length < cap then shufflePipe cap (buf ++ [x]) xs s
    else
      let s' := lcg s
      let i := s' % buf.length
      buf.getD i 0 :: shufflePipe cap (buf.set i x) xs s'

/-- The order in which a built dataset delivers its stored records, as a
function of the RNG seed in effect for the run.  A bare dataset is delivered
in storage order; a `ShufflerIterDataPipe`-wrapped dataset is delivered in
bounded-buffer shuffled order. -/
def deliveredOrder (d : BuiltDataset) (records : List Nat) (seed : Nat) : List Nat :=
  match d with
  | .base _ => records
  | .shuffler _ bufSize => shufflePipe bufSize [] records seed

/-! ## Dataloader accessors and Python call binding

`_make_loader(self, dataset, shuffle=None)` has exactly two parameters after
`self`.  The accessors invoke it; Python binds a call's arguments to the
callee's parameter list *before* the body runs, raising `TypeError` when a
keyword does not name a parameter (or too many positionals are given). -/

/-- A Python value passed as an argument to `_make_loader`. -/
inductive PyVal where
  | dataset (d : Option BuiltDataset)
  | nat (n : Nat)
  | bool (b : Bool)
  | callable (name : String)
  | pyNone
deriving DecidableEq, Repr

/-- The `DataLoader(dataset, shuffle=shuffle, num_workers=0, pin_memory=True)`
built by the body of `_make_loader`, recording what was bound to each
parameter. -/
structure PyLoader where
  dataset : PyVal
  shuffle : PyVal
deriving DecidableEq, Repr

/-- Python call-binding semantics for `self._make_loader(...)`, whose
parameter list after `self` is `["dataset", "shuffle"]` with `shuffle`
defaulted.  Surplus positional arguments and keyword arguments that name no
remaining parameter raise `TypeError` before the body runs. -/
def callMakeLoader (posArgs : List PyVal) (kwargs : List (String × PyVal)) :
    Except PyErr PyLoader :=
  if 2 < posArgs.length then
    .error .typeError
  else if kwargs.any (fun kv =>
      !((["dataset", "shuffle"].drop posArgs.length).contains kv.1)) then
    .error .typeError
  else
    match posArgs with
    | [] =>
      match kwargs.lookup "dataset" with
      | some d => .ok ⟨d, ((kwargs.lookup "shuffle").getD .pyNone)⟩
      | none => .error .typeError
    | [d] => .ok ⟨d, ((kwargs.lookup "shuffle").getD .pyNone)⟩
    | [d, s] => .ok ⟨d, s⟩
    | _ :: _ :: _ :: _ => .error .typeError

/-- `train_dataloader`: `self._make_loader(self.train_dataset, self.shuffle)`. -/
def train_dataloader (dm : DataModuleCfg) (st : DMState) : Except PyErr PyLoader :=
  callMakeLoader [.dataset st.train_dataset, .bool dm.shuffle] []

/-- `val_dataloader`: `self._make_loader(self.valid_dataset)`. -/
def val_dataloader (st : DMState) : Except PyErr PyLoader :=
  callMakeLoader [.dataset st.valid_dataset] []

/-- `test_dataloader`: `self._make_loader(self.test_dataset)`. -/
def test_dataloader (st : DMState) : Except PyErr PyLoader :=
  callMakeLoader [.dataset st.test_dataset] []

/-- `predict_dataloader`: `self._make_loader(self.test_dataset)`. -/
def predict_dataloader (st : DMState) : Except PyErr PyLoader :=
  callMakeLoader [.dataset st.test_dataset] []

/-- The names bound at module level in `dataloaders.py` — its imports
(`functools`, ..., `ShufflerIterDataPipe`, `PeptideTokenizer`,
`AnnotatedSpectrumDataset`, `CustomField`, `SpectrumDataset`,
`preprocessing`) and its module-level definitions (`logger`,
`DeNovoDataModule`, `scale_to_unit_norm`).  `prepare_psm_batch` is not
among them: it is neither defined nor imported anywhere in the module. -/
def dataloadersModuleGlobals : List String :=
  ["functools", "logging", "os", "Optional", "Iterable", "Path", "pl", "np",
   "torch", "DataLoader", "tempfile", "pa", "ShufflerIterDataPipe",
   "PeptideTokenizer", "AnnotatedSpectrumDataset", "CustomField",
   "SpectrumDataset", "preprocessing", "logger", "DeNovoDataModule",
   "scale_to_unit_norm"]

/-- Python resolution of a free (global) name inside a method of
`dataloaders.py`: a name bound in the module namespace evaluates to its
value; an unbound name raises `NameError`. -/
def resolveGlobal (n : String) : Except PyErr PyVal :=
  if dataloadersModuleGlobals.contains n then .ok (.callable n)
  else .error .nameError

/-- `db_dataloader`: `self._make_loader(self.test_dataset,
self.eval_batch_size, collate_fn=functools.partial(prepare_psm_batch,
protein_database=self.protein_database))`.  Python evaluates every argument
expression *before* binding the callee's parameters, so the free name
`prepare_psm_batch` inside the `functools.partial(...)` argument is resolved
first; only if that succeeded would the batch size land positionally on the
`shuffle` parameter and the `collate_fn` keyword reach `_make_loader`'s
binding. -/
def db_dataloader (dm : DataModuleCfg) (st : DMState) : Except PyErr PyLoader :=
  (resolveGlobal "prepare_psm_batch").bind (fun f =>
    callMakeLoader [.dataset st.test_dataset, .nat dm.eval_batch_size]
      [("collate_fn", f)])

/-! ## `scale_to_unit_norm`

The final step of `preprocessing_fn`.  The source is
`spectrum._inner._intensity = spectrum.intensity /
np.linalg.norm(spectrum.intensity); return spectrum`: an unconditional
elementwise numpy division by the Euclidean norm, returning the record in
all cases (there is no rejection path).  Finite floats are modelled as real
numbers and the IEEE results of dividing by zero are modelled explicitly. -/

/-- A numpy floating-point value: a finite real, `nan`, or a signed
infinity. -/
inductive NpVal where
  | val (x : ℝ)
  | nan
  | posInf
  | negInf

/-- numpy elementwise division on finite operands: `0/0` is `nan` and
`x/0` for `x ≠ 0` is a signed infinity; otherwise real division. -/
noncomputable def npDiv (x y : ℝ) : NpVal :=
  if y = 0 then
    if x = 0 then .nan else if 0 < x then .posInf else .negInf
  else .val (x / y)

/-- `np.linalg.norm`: the Euclidean norm of a vector. -/
noncomputable def euclNorm (xs : List ℝ) : ℝ :=
  Real.sqrt ((xs.map (fun x => x ^ 2)).sum)

/-- A spectrum record as it reaches step 5 of the preprocessing chain
(after steps 1-4): peak m/z values, the post-steps-1-4 intensity vector,
and the precursor data. -/
structure SpectrumR where
  mz : List ℝ
  intensity : List ℝ
  precursorMz : ℝ
  precursorCharge : Int

/-- A spectrum record after `scale_to_unit_norm`, whose intensities are
numpy float values (possibly `nan`/infinite). -/
structure SpectrumN where
  mz : List ℝ
  intensity : List NpVal
  precursorMz : ℝ
  precursorCharge : Int

/-- `scale_to_unit_norm` from `dataloaders.py`: divides every intensity by
the Euclidean norm of the intensity vector and returns the record.  It is
total: no input is rejected. -/
noncomputable def scale_to_unit_norm (s : SpectrumR) : SpectrumN :=
  { mz := s.mz
    intensity := s.intensity.map (fun x => npDiv x (euclNorm s.intensity))
    precursorMz := s.precursorMz
    precursorCharge := s.precursorCharge }

/-! ## Model runner (spec-modelled)

`ModelRunner` lives in `casanovo/denovo/model_runner.py`, which is not among
the shown sources; only its unit tests (`tests/unit_tests/test_runner.py`)
are.  The definitions below are therefore modelled from the spec (§3, §4.3,
§4.4, §4.5, §7, §8), as their doc comments state. -/

/-- A hyperparameter name occurring in a checkpoint's hyperparameter map.
`max_iters` is the legacy name of `cosine_schedule_period_iters`. -/
inductive HKey where
  | n_layers
  | dim_model
  | n_beams
  | cosine_schedule_period_iters
  | max_iters
deriving DecidableEq, Repr

/-- A checkpoint's hyperparameter map. -/
abbrev HParams := List (HKey × Nat)

/-- Look a key up in a hyperparameter map. -/
def hpLookup (h : HParams) (k : HKey) : Option Nat :=
  h.lookup k

/-- Drop a key from a hyperparameter map. -/
def hpErase (h : HParams) (k : HKey) : HParams :=
  h.filter (fun p => p.1 != k)

/-- Set a key in a hyperparameter map. -/
def hpSet (h : HParams) (k : HKey) (v : Nat) : HParams :=
  (k, v) :: hpErase h k

/-- Modelled from the spec: the Run Configuration fields the Checkpoint
Reconciler cares about (§3): architecture-defining `n_layers`/`dim_model`
and behavior-defining `n_beams`/`cosine_schedule_period_iters`. -/
structure RunConfig where
  n_layers : Nat
  dim_model : Nat
  n_beams : Nat
  cosine_schedule_period_iters : Nat
deriving DecidableEq, Repr

/-- Modelled from the spec: the constructed model's fields (§3, §4.4). -/
structure Model where
  n_layers : Nat
  dim_model : Nat
  n_beams : Nat
  cosine_schedule_period_iters : Nat
deriving DecidableEq, Repr

/-- The hyperparameter map recorded when a model is saved to a checkpoint
(§3: "a versioned map of hyperparameters used to construct the model"). -/
def modelHParams (m : Model) : HParams :=
  [(.n_layers, m.n_layers), (.dim_model, m.dim_model), (.n_beams, m.n_beams),
   (.cosine_schedule_period_iters, m.cosine_schedule_period_iters)]

/-- Modelled from the spec: a checkpoint file's payload — weights plus an
optional hyperparameter map (the map can be absent, as the unit tests
produce by deleting `ckpt_data["hyper_parameters"]`). -/
structure Checkpoint where
  hyper_parameters : Option HParams
deriving DecidableEq, Repr

/-- The content found at a filesystem path: a well-formed checkpoint, or
arbitrary non-checkpoint bytes (e.g. an empty file). -/
inductive FileContent where
  | checkpoint (c : Checkpoint)
  | rawBytes (bytes : List Nat)
deriving DecidableEq, Repr

/-- A filesystem: a finite map from path names to file contents. -/
abbrev FS := List (String × FileContent)

/-- Look a path up in the filesystem. -/
def lookupFS (fs : FS) (p : String) : Option FileContent :=
  fs.lookup p

/-- Saving a model produces a checkpoint recording its hyperparameters
(§3; §5: saving always produces a new checkpoint file). -/
def saveCheckpoint (m : Model) : FileContent :=
  .checkpoint ⟨some (modelHParams m)⟩

/-- Errors surfaced by the model-runner lifecycle (§7 error taxonomy),
tagged with the Python exception class the unit tests observe. -/
inductive RunnerError where
  | valueError
  | fileNotFoundError
  | eofError
  | runtimeErrorMissingArch
  | typeErrorAnnotationIndex
deriving DecidableEq, Repr

/-- Modelled from the spec: a fresh model is constructed from the Run
Configuration alone (§4.3, no checkpoint given and `train=True`). -/
def freshModel (cfg : RunConfig) : Model :=
  { n_layers := cfg.n_layers
    dim_model := cfg.dim_model
    n_beams := cfg.n_beams
    cosine_schedule_period_iters := cfg.cosine_schedule_period_iters }

/-- The result of constructing/loading a model: the model, the resulting
hyperparameter map, and how many deprecation warnings were recorded. -/
structure LoadedModel where
  model : Model
  hparams : HParams
  deprecationWarnings : Nat
deriving DecidableEq, Repr

/-- Modelled from the spec: the Checkpoint Reconciler (§4.4).
Architecture-defining fields (`n_layers`, `dim_model`) are taken from the
checkpoint's hyperparameter map; behavior-defining fields (`n_beams`,
`cosine_schedule_period_iters`) from the Run Configuration.  If the map
contains the legacy name `max_iters`, its value is copied into
`cosine_schedule_period_iters`, the legacy name is dropped, and exactly one
deprecation warning is recorded; per §8's migration property the migrated
value is the one the model ends up with, so it is not silently lost. -/
def reconcileCk (cfg : RunConfig) (h : HParams) : LoadedModel :=
  match hpLookup h .max_iters with
  | some v =>
    let h' := hpSet (hpErase h .max_iters) .cosine_schedule_period_iters v
    { model :=
        { n_layers := (hpLookup h' .n_layers).getD 0
          dim_model := (hpLookup h' .dim_model).getD 0
          n_beams := cfg.n_beams
          cosine_schedule_period_iters := v }
      hparams := h'
      deprecationWarnings := 1 }
  | none =>
    { model :=
        { n_layers := (hpLookup h .n_layers).getD 0
          dim_model := (hpLookup h .dim_model).getD 0
          n_beams := cfg.n_beams
          cosine_schedule_period_iters := cfg.cosine_schedule_period_iters }
      hparams := h
      deprecationWarnings := 0 }

/-- Modelled from the spec: `ModelRunner.initialize_model(train)` (§4.3),
which is not under the shown sources.  No checkpoint path and `train=True`
constructs a fresh model from the Run Configuration; no checkpoint path and
`train=False` is a configuration error (`ValueError`); a path that does not
exist is a not-found error; a file that is not a well-formed checkpoint is
an end-of-data error (`EOFError`); a checkpoint without a hyperparameter map
cannot determine the architecture; otherwise the Checkpoint Reconciler (§4.4)
produces the model. -/
def initialize_model (fs : FS) (cfg : RunConfig) (model_filename : Option String)
    (train : Bool) : Except RunnerError LoadedModel :=
  match model_filename with
  | none =>
    if train then
      .ok ⟨freshModel cfg, modelHParams (freshModel cfg), 0⟩
    else .error .valueError
  | some p =>
    match lookupFS fs p with
    | none => .error .fileNotFoundError
    | some (.rawBytes _) => .error .eofError
    | some (.checkpoint c) =>
      match c.hyper_parameters with
      | none => .error .runtimeErrorMissingArch
      | some h => .ok (reconcileCk cfg h)

/-! ### Evaluation input validation (spec-modelled) -/

/-- The peak-list file family, determined purely by file extension (§6). -/
inductive FileFamily where
  | mgf
  | mzml
deriving DecidableEq, Repr

/-- Modelled from the spec: an evaluation input path, abstracted to the
properties §4.5 branches on — its file family, whether it carries
ground-truth sequence annotations, and whether it provides the
scan-identifier auxiliary fields expected for its family. -/
structure EvalInput where
  family : FileFamily
  annotated : Bool
  hasScanId : Bool
deriving DecidableEq, Repr

/-- The outcome of `ModelRunner.predict(..., evaluate=True)`: the result
(success carries the subset of inputs that was scored), whether a non-fatal
warning was emitted, and the lines of the results artifact on disk (the
metadata header is written before anything else, §6). -/
structure PredictOutcome where
  result : Except RunnerError (List EvalInput)
  warned : Bool
  artifact : List String

/-- Modelled from the spec: evaluation-mode input validation of
`ModelRunner.predict` (§4.5), which is not under the shown sources.  The
metadata header is written first in every case.  All inputs annotated:
proceed normally.  All inputs unannotated: fail before any predictions are
written; per the repository's own `test_evaluate`, a set containing an
annotation-capable (MGF) member fails with the typed annotation-index error,
while a set with no annotation-capable member fails with a not-found error.
Mixed: warn and score only the annotated subset, unless some unannotated
member lacks the scan-identifier auxiliary fields expected for its family,
in which case fail with the same typed annotation-index error. -/
def predictEval (files : List EvalInput) : PredictOutcome :=
  let header := ["mztab-metadata"]
  if files.all (fun f => f.annotated) then
    { result := .ok files
      warned := false
      artifact := header ++ files.map (fun _ => "psm-row") }
  else if files.all (fun f => !f.annotated) then
    if files.any (fun f => f.family == .mgf) then
      { result := .error .typeErrorAnnotationIndex, warned := false, artifact := header }
    else
      { result := .error .fileNotFoundError, warned := false, artifact := header }
  else
    if files.all (fun f => f.annotated || f.hasScanId) then
      let scored := files.filter (fun f => f.annotated)
      { result := .ok scored
        warned := true
        artifact := header ++ scored.map (fun _ => "psm-row") }
    else
      { result := .error .typeErrorAnnotationIndex, warned := false, artifact := header }

/-! ## Hyperparameter-map lemmas -/

theorem hpLookup_hpSet_self (h : HParams) (k : HKey) (v : Nat) :
    hpLookup (hpSet h k v) k = some v := by
  have hk : (k == k) = true := by simp
  simp only [hpLookup, hpSet, List.lookup, hk]

theorem hpLookup_hpErase_self (h : HParams) (k : HKey) :
    hpLookup (hpErase h k) k = none := by
  induction h with
  | nil => rfl
  | cons p t ih =>
    simp only [hpLookup, hpErase, List.filter_cons] at ih ⊢
    by_cases hp : p.1 = k
    · have h1 : (p.1 != k) = false := by simp [hp]
      simpa [h1] using ih
    · have h1 : (p.1 != k) = true := by simp [hp]
      have h2 : (k == p.1) = false := by
        simp only [beq_eq_false_iff_ne]
        exact fun he => hp he.symm
      simpa [h1, List.lookup, h2] using ih

theorem hpLookup_hpErase_ne (h : HParams) (k k' : HKey) (hne : k' ≠ k) :
    hpLookup (hpErase h k) k' = hpLookup h k' := by
  induction h with
  | nil => rfl
  | cons p t ih =>
    simp only [hpLookup, hpErase, List.filter_cons] at ih ⊢
    by_cases hp : p.1 = k
    · have h1 : (p.1 != k) = false := by simp [hp]
      have h2 : (k' == p.1) = false := by
        simp only [beq_eq_false_iff_ne]
        rw [hp]
        exact hne
      simpa [h1, List.lookup, h2] using ih
    · have h1 : (p.1 != k) = true := by simp [hp]
      by_cases hq : k' = p.1
      · simp [h1, List.lookup, hq]
      · have h2 : (k' == p.1) = false := by simpa [beq_eq_false_iff_ne] using hq
        simpa [h1, List.lookup, h2] using ih

theorem hpLookup_hpSet_ne (h : HParams) (k k' : HKey) (v : Nat) (hne : k' ≠ k) :
    hpLookup (hpSet h k v) k' = hpLookup h k' := by
  have hk : (k' == k) = false := by simpa [beq_eq_false_iff_ne] using hne
  simp only [hpLookup, hpSet, List.lookup, hk]
  simpa [hpLookup] using hpLookup_hpErase_ne h k k' hne

/-! ## Claim theorems -/

/-- C2.  No-checkpoint initialization contract: with no checkpoint path,
`initialize_model(train=True)` always succeeds with a fresh model built from
the Run Configuration, and `initialize_model(train=False)` always fails with
a configuration error (`ValueError`). -/
theorem C2_no_checkpoint_init_contract (fs : FS) (cfg : RunConfig) :
    initialize_model fs cfg none true =
      .ok ⟨freshModel cfg, modelHParams (freshModel cfg), 0⟩ ∧
    initialize_model fs cfg none false = .error .valueError :=
  ⟨rfl, rfl⟩

/-- C3.  Checkpoint-file error classification: a non-existent checkpoint path
fails with the not-found error regardless of the `train` flag; an existing
file holding arbitrary non-checkpoint bytes fails with the end-of-data error,
which is distinct from the not-found error. -/
theorem C3_checkpoint_file_error_classification (fs : FS) (cfg : RunConfig)
    (p : String) (train : Bool) :
    (lookupFS fs p = none →
      initialize_model fs cfg (some p) train = .error .fileNotFoundError) ∧
    (∀ bytes, lookupFS fs p = some (.rawBytes bytes) →
      initialize_model fs cfg (some p) train = .error .eofError) ∧
    RunnerError.eofError ≠ RunnerError.fileNotFoundError := by
  refine ⟨fun h => ?_, fun bytes h => ?_, by decide⟩ <;>
    simp [initialize_model, h]

/-- Witness for C3 at a concrete filesystem holding one empty (raw-bytes)
file named `"ck"`. -/
theorem C3_checkpoint_file_error_classification_witness :
    initialize_model [("ck", FileContent.rawBytes [])] ⟨1, 2, 3, 4⟩
      (some "nope") true = .error .fileNotFoundError ∧
    initialize_model [("ck", FileContent.rawBytes [])] ⟨1, 2, 3, 4⟩
      (some "ck") false = .error .eofError :=
  ⟨(C3_checkpoint_file_error_classification _ _ "nope" true).1 rfl,
   (C3_checkpoint_file_error_classification _ _ "ck" false).2.1 [] rfl⟩

/-- C1.  Checkpoint-resume round-trip: loading a checkpoint saved from a
model under a different Run Configuration yields a model whose
architecture-defining fields equal the checkpoint's original values and
whose non-architecture fields equal the new Run Configuration's values. -/
theorem C1_checkpoint_resume_round_trip (fs : FS) (p : String) (m : Model)
    (cfg2 : RunConfig) (train : Bool)
    (hck : lookupFS fs p = some (saveCheckpoint m)) :
    initialize_model fs cfg2 (some p) train =
      .ok ⟨⟨m.n_layers, m.dim_model, cfg2.n_beams,
            cfg2.cosine_schedule_period_iters⟩, modelHParams m, 0⟩ := by
  simp only [initialize_model]
  rw [hck]
  rfl

/-- Witness for C1: a model with layers 7 saved and reloaded under a
configuration with beam count 3 and schedule period 4. -/
theorem C1_checkpoint_resume_round_trip_witness :
    initialize_model [("ck.ckpt", saveCheckpoint ⟨7, 8, 9, 10⟩)] ⟨1, 2, 3, 4⟩
      (some "ck.ckpt") false =
      .ok ⟨⟨7, 8, 3, 4⟩, modelHParams ⟨7, 8, 9, 10⟩, 0⟩ :=
  C1_checkpoint_resume_round_trip _ "ck.ckpt" ⟨7, 8, 9, 10⟩ ⟨1, 2, 3, 4⟩ false rfl

/-- C4.  Deprecated-field migration: loading a checkpoint whose
hyperparameter map contains the legacy `max_iters` name and not the current
name yields a model whose `cosine_schedule_period_iters` equals the legacy
value, drops the legacy name from the resulting hyperparameters (while
keeping the value under the current name), and records exactly one
deprecation warning. -/
theorem C4_deprecated_field_migration (fs : FS) (cfg : RunConfig) (p : String)
    (train : Bool) (h : HParams) (v : Nat)
    (hck : lookupFS fs p = some (.checkpoint ⟨some h⟩))
    (hleg : hpLookup h .max_iters = some v)
    (_hcur : hpLookup h .cosine_schedule_period_iters = none) :
    initialize_model fs cfg (some p) train = .ok (reconcileCk cfg h) ∧
    (reconcileCk cfg h).model.cosine_schedule_period_iters = v ∧
    hpLookup (reconcileCk cfg h).hparams .max_iters = none ∧
    hpLookup (reconcileCk cfg h).hparams .cosine_schedule_period_iters = some v ∧
    (reconcileCk cfg h).deprecationWarnings = 1 := by
  refine ⟨?_, ?_, ?_, ?_, ?_⟩
  · simp only [initialize_model]
    rw [hck]
  · simp [reconcileCk, hleg]
  · simp only [reconcileCk, hleg]
    rw [hpLookup_hpSet_ne _ _ _ _ (by decide)]
    exact hpLookup_hpErase_self h .max_iters
  · simp only [reconcileCk, hleg]
    exact hpLookup_hpSet_self _ _ _
  · simp [reconcileCk, hleg]

/-- Witness for C4: a checkpoint whose hyperparameter map is
`[(max_iters, 5), (n_layers, 2)]`. -/
theorem C4_deprecated_field_migration_witness :
    initialize_model [("old.ckpt", .checkpoint ⟨some [(.max_iters, 5), (.n_layers, 2)]⟩)]
        ⟨1, 2, 3, 4⟩ (some "old.ckpt") false =
      .ok (reconcileCk ⟨1, 2, 3, 4⟩ [(.max_iters, 5), (.n_layers, 2)]) ∧
    (reconcileCk ⟨1, 2, 3, 4⟩ [(.max_iters, 5), (.n_layers, 2)]).model.cosine_schedule_period_iters = 5 ∧
    hpLookup (reconcileCk ⟨1, 2, 3, 4⟩ [(.max_iters, 5), (.n_layers, 2)]).hparams .max_iters = none ∧
    hpLookup (reconcileCk ⟨1, 2, 3, 4⟩ [(.max_iters, 5), (.n_layers, 2)]).hparams
      .cosine_schedule_period_iters = some 5 ∧
    (reconcileCk ⟨1, 2, 3, 4⟩ [(.max_iters, 5), (.n_layers, 2)]).deprecationWarnings = 1 :=
  C4_deprecated_field_migration _ _ "old.ckpt" false _ 5 rfl rfl rfl

/-- Counterexample to C10 as stated: at a concrete module state,
`db_dataloader` raises `NameError` — while evaluating the
`functools.partial(prepare_psm_batch, ...)` argument, whose free name
`prepare_psm_batch` is neither defined nor imported in `dataloaders.py` —
and not the claimed `TypeError`: argument expressions are evaluated before
`_make_loader`'s parameter binding ever runs. -/
theorem C10_counterexample_nameerror_not_typeerror :
    db_dataloader ⟨128, 1028, false, 100000, "tmp", none, none, none⟩
      ⟨none, none, none⟩ = .error .nameError ∧
    PyErr.nameError ≠ PyErr.typeError :=
  ⟨rfl, by decide⟩

/-- C10 (amended).  `db_dataloader` always raises before returning a
dataloader, for every module state — the DB-search accessor can never
succeed — but the exception is `NameError`, raised while evaluating the
`collate_fn` argument expression whose free name `prepare_psm_batch` is
unbound in the module, before `_make_loader`'s argument binding (which
would itself have rejected the undeclared `collate_fn` keyword) is ever
reached. -/
theorem C10_db_dataloader_always_nameerror (dm : DataModuleCfg) (st : DMState) :
    db_dataloader dm st = .error .nameError :=
  rfl

/-- Concrete configuration used by the C7 theorems. -/
def dmC7 : DataModuleCfg :=
  ⟨128, 1028, false, 100000, "tmp", none, none, none⟩

/-- Counterexample to C7 as stated: a path set mixing a pre-built `.lance`
store with a raw `.mgf` file does not fail with a configuration error —
`make_dataset` silently loads `paths[0]` with the lance loader. -/
theorem C7_counterexample_mixed_store_raw_ok :
    make_dataset dmC7 [⟨"store.lance", ".lance"⟩, ⟨"raw.mgf", ".mgf"⟩]
      false "test" false = .ok (.base (.plainFromLance "store.lance" 1028)) :=
  rfl

/-- C7 (amended).  Whenever any path's suffix is a substring of `".lance"`
(the Python test `suffix in (".lance")`; this includes the empty suffix of
extension-less paths), `make_dataset` loads the dataset from the first
path's name via the lance loader, ignoring all remaining paths, and raises
no configuration error. -/
theorem C7_mixed_store_raw_loads_first_path (dm : DataModuleCfg) (p : MSPath)
    (rest : List MSPath) (annotated : Bool) (mode : String) (shuffle : Bool)
    (hmix : (p :: rest).any (fun f => pyIn f.suffix ".lance") = true) :
    make_dataset dm (p :: rest) annotated mode shuffle =
      .ok (if shuffle then
             .shuffler (if annotated then
                 .annotatedFromLance p.name
                   (if mode == "train" then dm.train_batch_size else dm.eval_batch_size)
               else
                 .plainFromLance p.name
                   (if mode == "train" then dm.train_batch_size else dm.eval_batch_size))
               dm.buffer_size
           else
             .base (if annotated then
                 .annotatedFromLance p.name
                   (if mode == "train" then dm.train_batch_size else dm.eval_batch_size)
               else
                 .plainFromLance p.name
                   (if mode == "train" then dm.train_batch_size else dm.eval_batch_size))) := by
  simp only [make_dataset, hmix, if_true]
  cases annotated <;> cases shuffle <;> simp [Except.map]

/-- Witness for C7 (amended): a `.lance` store mixed with a raw `.mgf` file
under the training mode with shuffling. -/
theorem C7_mixed_store_raw_loads_first_path_witness :
    make_dataset dmC7 [⟨"s.lance", ".lance"⟩, ⟨"r.mgf", ".mgf"⟩] true "train" true =
      .ok (.shuffler (.annotatedFromLance "s.lance" 128) 100000) := by
  have h := C7_mixed_store_raw_loads_first_path dmC7 ⟨"s.lance", ".lance"⟩
    [⟨"r.mgf", ".mgf"⟩] true "train" true rfl
  simpa using h

/-- Counterexample to C5 as stated: the all-unannotated input set consisting
of a single mzML file fails with the not-found error, not the typed
annotation-index error (exactly what the repository's `test_evaluate`
expects at lines 207-209). -/
theorem C5_counterexample_all_mzml_not_found :
    (predictEval [⟨.mzml, false, true⟩]).result = .error .fileNotFoundError ∧
    RunnerError.fileNotFoundError ≠ RunnerError.typeErrorAnnotationIndex :=
  ⟨rfl, by decide⟩

/-- C5 (amended).  For every non-empty input set of only unannotated
spectra, `predict` with `evaluate=True` fails — with the typed
annotation-index error when the set contains an annotation-capable (MGF)
member, and with a not-found error when it contains none — and in either
case a non-empty results artifact (the metadata header) remains on disk. -/
theorem C5_unannotated_eval_failure (files : List EvalInput)
    (hne : files ≠ [])
    (hunann : files.all (fun f => !f.annotated) = true) :
    (files.any (fun f => f.family == .mgf) = true →
      (predictEval files).result = .error .typeErrorAnnotationIndex) ∧
    (files.any (fun f => f.family == .mgf) = false →
      (predictEval files).result = .error .fileNotFoundError) ∧
    (predictEval files).artifact ≠ [] := by
  have hall : files.all (fun f => f.annotated) = false := by
    cases files with
    | nil => exact absurd rfl hne
    | cons f fs =>
      simp only [List.all_cons, Bool.and_eq_true, Bool.not_eq_true'] at hunann
      simp [hunann.1]
  refine ⟨fun hmgf => ?_, fun hnomgf => ?_, ?_⟩ <;>
    simp only [predictEval, hall, hunann, Bool.false_eq_true, if_false, if_true]
  · simp [hmgf]
  · simp [hnomgf]
  · by_cases hmgf : files.any (fun f => f.family == .mgf) = true <;> simp [hmgf]

/-- Witness for C5 (amended) at the single unannotated MGF input. -/
theorem C5_unannotated_eval_failure_witness :
    (predictEval [⟨.mgf, false, false⟩]).result = .error .typeErrorAnnotationIndex ∧
    (predictEval [⟨.mgf, false, false⟩]).artifact ≠ [] :=
  ⟨(C5_unannotated_eval_failure [⟨.mgf, false, false⟩] (by decide) rfl).1 rfl,
   (C5_unannotated_eval_failure [⟨.mgf, false, false⟩] (by decide) rfl).2.2⟩

/-- C6.  Mixed-annotation evaluation boundary: with both annotated and
unannotated members present, evaluation warns and continues scoring only the
annotated subset when every unannotated member provides the scan-identifier
auxiliary fields expected for its file family, and fails with the same typed
annotation-index error as the fully-unannotated case when some unannotated
member does not. -/
theorem C6_mixed_annotation_eval_boundary (files : List EvalInput)
    (hsomeAnn : files.any (fun f => f.annotated) = true)
    (hsomeUn : files.any (fun f => !f.annotated) = true) :
    (files.all (fun f => f.annotated || f.hasScanId) = true →
      (predictEval files).warned = true ∧
      (predictEval files).result = .ok (files.filter (fun f => f.annotated))) ∧
    (files.all (fun f => f.annotated || f.hasScanId) = false →
      (predictEval files).result = .error .typeErrorAnnotationIndex) := by
  have h1 : files.all (fun f => f.annotated) = false := by
    rcases List.any_eq_true.mp hsomeUn with ⟨f, hfmem, hf⟩
    cases hall : files.all (fun f => f.annotated) with
    | false => rfl
    | true =>
      have := List.all_eq_true.mp hall f hfmem
      rw [this] at hf
      simp at hf
  have h2 : files.all (fun f => !f.annotated) = false := by
    rcases List.any_eq_true.mp hsomeAnn with ⟨f, hfmem, hf⟩
    cases hall : files.all (fun f => !f.annotated) with
    | false => rfl
    | true =>
      have := List.all_eq_true.mp hall f hfmem
      rw [hf] at this
      simp at this
  constructor
  · intro hscan
    constructor <;>
      simp only [predictEval, h1, h2, hscan, Bool.false_eq_true, if_false, if_true]
  · intro hnoscan
    simp only [predictEval, h1, h2, hnoscan, Bool.false_eq_true, if_false, if_true]

/-- Witness for C6 at the mix of one annotated MGF and one unannotated (but
scan-identifier-complete) mzML input: a warning is emitted and only the
annotated subset is scored. -/
theorem C6_mixed_annotation_eval_boundary_witness :
    (predictEval [⟨.mgf, true, true⟩, ⟨.mzml, false, true⟩]).warned = true ∧
    (predictEval [⟨.mgf, true, true⟩, ⟨.mzml, false, true⟩]).result =
      .ok [⟨.mgf, true, true⟩] := by
  have h := (C6_mixed_annotation_eval_boundary
    [⟨.mgf, true, true⟩, ⟨.mzml, false, true⟩] rfl rfl).1 rfl
  simpa using h

/-! ## Batch-order determinism (C8) -/

theorem except_map_ok {α β γ : Type} (f : α → β) (e : Except γ α) (b : β)
    (h : e.map f = .ok b) : ∃ a, e = .ok a ∧ b = f a := by
  cases e with
  | error c => simp [Except.map] at h
  | ok a =>
    simp only [Except.map, Except.ok.injEq] at h
    exact ⟨a, rfl, h.symm⟩

theorem except_bind_ok {α β γ : Type} (e : Except γ α) (f : α → Except γ β)
    (b : β) (h : e.bind f = .ok b) : ∃ a, e = .ok a ∧ f a = .ok b := by
  cases e with
  | error c => simp [Except.bind] at h
  | ok a => exact ⟨a, rfl, h⟩

/-- A dataset built by `make_dataset` with `shuffle=False` is never wrapped
in the shuffler, so it is delivered in storage order under every seed. -/
theorem make_dataset_unshuffled_storage_order (dm : DataModuleCfg)
    (ps : List MSPath) (annotated : Bool) (mode : String) (d : BuiltDataset)
    (hmk : make_dataset dm ps annotated mode false = .ok d)
    (recs : List Nat) (seed : Nat) :
    deliveredOrder d recs seed = recs := by
  simp only [make_dataset, Bool.false_eq_true, if_false] at hmk
  obtain ⟨b, -, hb⟩ := except_map_ok _ _ _ hmk
  rw [hb]
  rfl

/-- The test-stage part of `setup` never writes the train or valid slots. -/
theorem setup_test_part_preserves (dm : DataModuleCfg) (stage : Option String)
    (annotated : Bool) (st st' : DMState)
    (h : (if stage == none || stage == some "test" then
            match dm.test_paths with
            | some ps =>
              (make_dataset dm ps annotated "test" false).map
                (fun d => { st with test_dataset := some d })
            | none => .ok st
          else .ok st) = .ok st') :
    st'.train_dataset = st.train_dataset ∧ st'.valid_dataset = st.valid_dataset := by
  by_cases hc : (stage == none || stage == some "test") = true
  · rw [if_pos hc] at h
    cases htp : dm.test_paths with
    | none =>
      rw [htp] at h
      cases h
      exact ⟨rfl, rfl⟩
    | some ps =>
      rw [htp] at h
      obtain ⟨b, -, hb⟩ := except_map_ok _ _ _ h
      rw [hb]
      exact ⟨rfl, rfl⟩
  · rw [if_neg hc] at h
    cases h
    exact ⟨rfl, rfl⟩

/-- C8.  Batch-order determinism: under any successful `setup`, a freshly
built validation or test dataset delivers its records in storage order under
every seed (hence identically across two runs with different seeds), and the
delivery order of any dataset — in particular the buffer-shuffled training
dataset — is a function of the seed alone, so equal seeds give identical
order across two runs. -/
theorem C8_batch_order_determinism (dm : DataModuleCfg) (stage : Option String)
    (annotated : Bool) (st st' : DMState) (recs : List Nat) (s1 s2 : Nat)
    (hsetup : setup dm stage annotated st = .ok st') :
    (∀ ps d, dm.valid_paths = some ps →
      (stage == none || stage == some "fit" || stage == some "validate") = true →
      st'.valid_dataset = some d →
      deliveredOrder d recs s1 = recs ∧ deliveredOrder d recs s2 = recs) ∧
    (∀ ps d, dm.test_paths = some ps →
      (stage == none || stage == some "test") = true →
      st'.test_dataset = some d →
      deliveredOrder d recs s1 = recs ∧ deliveredOrder d recs s2 = recs) ∧
    (∀ d : BuiltDataset, s1 = s2 →
      deliveredOrder d recs s1 = deliveredOrder d recs s2) := by
  simp only [setup] at hsetup
  obtain ⟨stF, hfit, htest⟩ := except_bind_ok _ _ _ hsetup
  refine ⟨?_, ?_, fun d hs => by rw [hs]⟩
  · intro ps d hvp hstage hvd
    rw [if_pos hstage] at hfit
    obtain ⟨st1, -, hvalid⟩ := except_bind_ok _ _ _ hfit
    rw [hvp] at hvalid
    obtain ⟨dv, hdv, hstF⟩ := except_map_ok _ _ _ hvalid
    have hpres := (setup_test_part_preserves dm stage annotated stF st' htest).2
    rw [hpres, hstF] at hvd
    simp only [Option.some.injEq] at hvd
    subst hvd
    constructor <;> exact make_dataset_unshuffled_storage_order dm ps true "valid" _ hdv _ _
  · intro ps d htp hstage htd
    rw [if_pos hstage, htp] at htest
    obtain ⟨dt, hdt, hst'⟩ := except_map_ok _ _ _ htest
    rw [hst'] at htd
    simp only [Option.some.injEq] at htd
    subst htd
    constructor <;> exact make_dataset_unshuffled_storage_order dm ps annotated "test" _ hdt _ _

/-- Configuration used by the C8 witness: shuffled training, a valid `.mgf`
path and a test `.mzml` path. -/
def dmW8 : DataModuleCfg :=
  ⟨2, 3, true, 4, "t", none, some [⟨"v.mgf", ".mgf"⟩], some [⟨"x.mzml", ".mzml"⟩]⟩

/-- The data module state `setup dmW8 none true ⟨none, none, none⟩` yields. -/
def stW8 : DMState :=
  ⟨none,
   some (.base (.annotatedNew ["v.mgf"] "t/valid.lance" [.seq] 3)),
   some (.base (.annotatedNew ["x.mzml"] "t/test.lance"
     [.seq, .scansMzml, .titleMzml] 3))⟩

/-- Witness for C8: after a concrete `setup` run, the freshly built valid
dataset delivers its three records in storage order under two different
seeds. -/
theorem C8_batch_order_determinism_witness :
    deliveredOrder (.base (.annotatedNew ["v.mgf"] "t/valid.lance" [.seq] 3))
      [10, 20, 30] 5 = [10, 20, 30] ∧
    deliveredOrder (.base (.annotatedNew ["v.mgf"] "t/valid.lance" [.seq] 3))
      [10, 20, 30] 6 = [10, 20, 30] := by
  have h := C8_batch_order_determinism dmW8 none true ⟨none, none, none⟩ stW8
    [10, 20, 30] 5 6 rfl
  exact h.1 [⟨"v.mgf", ".mgf"⟩] _ rfl rfl rfl

/-! ## Zero-norm preprocessing edge case (C9) -/

theorem sum_sq_nonneg (xs : List ℝ) : 0 ≤ (xs.map (fun x => x ^ 2)).sum := by
  induction xs with
  | nil => simp
  | cons a t ih =>
    simp only [List.map_cons, List.sum_cons]
    exact add_nonneg (sq_nonneg a) ih

theorem sum_sq_zero {xs : List ℝ} (h : (xs.map (fun x => x ^ 2)).sum = 0) :
    ∀ x ∈ xs, x = 0 := by
  induction xs with
  | nil => intro x hx; simp at hx
  | cons a t ih =>
    simp only [List.map_cons, List.sum_cons] at h
    have ha : a ^ 2 = 0 := by nlinarith [sq_nonneg a, sum_sq_nonneg t]
    have ht : (t.map (fun x => x ^ 2)).sum = 0 := by nlinarith [sq_nonneg a, sum_sq_nonneg t]
    intro x hx
    rcases List.mem_cons.mp hx with rfl | hx
    · exact pow_eq_zero_iff (two_ne_zero) |>.mp ha
    · exact ih ht x hx

theorem euclNorm_zero {xs : List ℝ} (h : euclNorm xs = 0) : ∀ x ∈ xs, x = 0 := by
  apply sum_sq_zero
  have hle : (xs.map (fun x => x ^ 2)).sum ≤ 0 := Real.sqrt_eq_zero'.mp h
  exact le_antisymm hle (sum_sq_nonneg xs)

theorem sum_div_sq (xs : List ℝ) (n : ℝ) :
    ((xs.map (fun x => x / n)).map (fun x => x ^ 2)).sum =
      (xs.map (fun x => x ^ 2)).sum / n ^ 2 := by
  induction xs with
  | nil => simp
  | cons a t ih =>
    simp only [List.map_cons, List.sum_cons, ih, div_pow, add_div]

/-- Counterexample to C9 as stated: the record whose post-steps-1-4
intensity vector is `[0]` has zero Euclidean norm, yet `scale_to_unit_norm`
does not reject it — it returns the record with the undefined (`nan`)
intensity `0/0`. -/
theorem C9_counterexample_zero_norm_not_rejected :
    euclNorm ([0] : List ℝ) = 0 ∧
    (scale_to_unit_norm ⟨[100], [0], 500, 2⟩).intensity = [NpVal.nan] := by
  have h0 : euclNorm ([0] : List ℝ) = 0 := by
    simp [euclNorm]
  refine ⟨h0, ?_⟩
  simp only [scale_to_unit_norm, List.map_cons, List.map_nil]
  rw [h0]
  simp [npDiv]

/-- C9 (amended).  `scale_to_unit_norm` never rejects a record: when the
post-steps-1-4 intensity vector has zero Euclidean norm every intensity
entry becomes the undefined `nan` value `0/0` (not a rejection, not a
crash); when the norm is nonzero, the step divides every entry by the norm
of the post-steps-1-4 vector, producing a vector of unit Euclidean norm
(its squared entries sum to 1). -/
theorem C9_zero_norm_scaling (s : SpectrumR) :
    (euclNorm s.intensity = 0 →
      (scale_to_unit_norm s).intensity = s.intensity.map (fun _ => NpVal.nan)) ∧
    (euclNorm s.intensity ≠ 0 →
      (scale_to_unit_norm s).intensity =
        s.intensity.map (fun x => NpVal.val (x / euclNorm s.intensity)) ∧
      ((s.intensity.map (fun x => x / euclNorm s.intensity)).map
        (fun x => x ^ 2)).sum = 1) := by
  constructor
  · intro h0
    simp only [scale_to_unit_norm]
    apply List.map_congr_left
    intro x hx
    rw [euclNorm_zero h0 x hx, h0]
    simp [npDiv]
  · intro hne
    constructor
    · simp only [scale_to_unit_norm]
      apply List.map_congr_left
      intro x hx
      simp [npDiv, hne]
    · rw [sum_div_sq]
      have hsq : euclNorm s.intensity ^ 2 = (s.intensity.map (fun x => x ^ 2)).sum :=
        Real.sq_sqrt (sum_sq_nonneg _)
      rw [hsq]
      apply div_self
      intro hS
      exact hne (by simp [euclNorm, hS])

/-- The record used by the C9 witness: post-steps-1-4 intensities `[3, 4]`
(Euclidean norm 5). -/
def sW9 : SpectrumR := ⟨[100, 200], [3, 4], 500, 2⟩

/-- Witness for C9 (amended): the record with intensities `[3, 4]` has
nonzero norm, every entry is divided by that norm, and the scaled squared
intensities sum to 1. -/
theorem C9_zero_norm_scaling_witness :
    (scale_to_unit_norm sW9).intensity =
      sW9.intensity.map (fun x => NpVal.val (x / euclNorm sW9.intensity)) ∧
    ((sW9.intensity.map (fun x => x / euclNorm sW9.intensity)).map
      (fun x => x ^ 2)).sum = 1 := by
  apply (C9_zero_norm_scaling sW9).2
  have h25 : (0:ℝ) < ((sW9.intensity.map (fun x => x ^ 2)).sum) := by
    norm_num [sW9]
  simp only [euclNorm]
  exact Real.sqrt_ne_zero'.mpr h25

end Casanovo
